import Mathlib

/-!
Shallow embedding of the `health-monitor` library (`src/monitor.ts`,
`src/types.ts`) in Lean 4, for checking the natural-language specification
against the code.

Modelling conventions:
* Wall-clock and monotonic times are `Nat` milliseconds.  JS subtraction
  `now - ts` compared with a positive bound behaves like truncated `Nat`
  subtraction for the comparisons the code performs (a negative JS value is
  never `>` a non-negative bound, and truncated subtraction yields `0`).
* An indicator's asynchronous `check()` call is modelled by a
  `CheckBehavior`: it either resolves after `t` ms or rejects after `t` ms
  carrying an optional error message (`none` models a missing / undefined
  `message` property; `some s` a string message, possibly empty).
* The `Promise.race` between the check and its timeout timer is resolved
  arithmetically: the timer fires at the effective timeout `T`, so the race
  settles at `min t T`, and the check wins only when it settles strictly
  before the timer.
* JS object assignment `details[name] = v` is `insertD`: it overwrites the
  value of an existing key in place and appends a fresh key at the end.
  The assignments happen in promise-settlement order, which is obtained
  from registration order by a stable sort on settlement times
  (`List.insertionSort`); ties keep registration order.
* The overall `status` mirrors the mutable `isAllUp` flag, which is set to
  `false` by every `catch` branch independently of the details map.
-/

/-- Component status: the string union `'up' | 'down'` of `ComponentDetail.status`. -/
inductive CompStatus where
  | up
  | down
deriving DecidableEq, Repr

/-- `ComponentDetail` from `types.ts`: `status`, optional `latency`, optional `error`. -/
structure ComponentDetail where
  status : CompStatus
  latency : Option Nat
  error : Option String
deriving DecidableEq, Repr

/-- Overall status: the string union `'ok' | 'down'` of `HealthStatus.status`. -/
inductive OverallStatus where
  | ok
  | down
deriving DecidableEq, Repr

/-- `HealthStatus` from `types.ts`.  The `details` record is an association
list with unique keys, in JS-object insertion order. -/
structure HealthStatus where
  status : OverallStatus
  lag : Nat
  details : List (String × ComponentDetail)
  timestamp : Nat
deriving DecidableEq, Repr

/-- `MonitorConfig` from `types.ts`: both fields optional. -/
structure MonitorConfig where
  interval : Option Nat
  timeout : Option Nat
deriving DecidableEq, Repr

/-- `Required<MonitorConfig>`: the resolved configuration stored in the monitor. -/
structure RequiredMonitorConfig where
  interval : Nat
  timeout : Nat
deriving DecidableEq, Repr

/-- `HealthIndicator` from `types.ts`; the `check` callable itself is
modelled separately by a `CheckBehavior`. -/
structure HealthIndicator where
  name : String
  timeout : Option Nat
deriving DecidableEq, Repr

/-- Behaviour of one indicator's `check()` promise during one cycle:
it resolves after `t` ms, or rejects after `t` ms with an optional
`message` (`none` = no message property, `some s` = string message). -/
inductive CheckBehavior where
  | resolve (t : Nat)
  | reject (t : Nat) (msg : Option String)
deriving DecidableEq, Repr

/-- The time at which the bare check settles (resolves or rejects). -/
def CheckBehavior.time : CheckBehavior → Nat
  | .resolve t => t
  | .reject t _ => t

/-- Effective timeout of an indicator: `ind.timeout ?? this.config.timeout`. -/
def effTimeout (defaultTimeout : Nat) (ind : HealthIndicator) : Nat :=
  ind.timeout.getD defaultTimeout

/-- `error.message || 'Unknown Error'`: a missing message or the empty
string (both falsy in JS) fall back to the literal. -/
def errorMessage (msg : Option String) : String :=
  match msg with
  | none => "Unknown Error"
  | some s => if s = "" then "Unknown Error" else s

/-- The fixed message of the synthesized timeout rejection:
`Timeout of {timeoutMs}ms exceeded`. -/
def timeoutMessage (timeoutMs : Nat) : String :=
  "Timeout of " ++ toString timeoutMs ++ "ms exceeded"

/-- Outcome recorded for one indicator in one cycle: the body of the
per-indicator async closure in `HealthMonitor.check`.  The race of
`ind.check()` against the timeout timer is won by the check only when it
settles strictly before the timer fires at the effective timeout. -/
def runIndicator (defaultTimeout : Nat) (ind : HealthIndicator)
    (b : CheckBehavior) : ComponentDetail :=
  let timeoutMs := effTimeout defaultTimeout ind
  match b with
  | .resolve t =>
      if t < timeoutMs then
        { status := .up, latency := some t, error := none }
      else
        { status := .down, latency := none, error := some (timeoutMessage timeoutMs) }
  | .reject t msg =>
      if t < timeoutMs then
        { status := .down, latency := none, error := some (errorMessage msg) }
      else
        { status := .down, latency := none, error := some (timeoutMessage timeoutMs) }

/-- The time at which the race for one indicator settles (and its
`details[name] = …` assignment runs): the earlier of the check itself and
the timeout timer. -/
def settleTime (defaultTimeout : Nat) (p : HealthIndicator × CheckBehavior) : Nat :=
  min p.2.time (effTimeout defaultTimeout p.1)

/-- JS object assignment `d[k] = v`: overwrite an existing key in place,
otherwise append the new binding at the end. -/
def insertD (d : List (String × ComponentDetail)) (k : String)
    (v : ComponentDetail) : List (String × ComponentDetail) :=
  match d with
  | [] => [(k, v)]
  | (k₁, v₁) :: rest =>
      if k₁ = k then (k, v) :: rest else (k₁, v₁) :: insertD rest k v

/-- The registered indicators paired with their behaviours, reordered into
promise-settlement order: a stable sort on settlement time (ties keep
registration order, as promise creation order does for same-tick settlements). -/
def settlementOrder (defaultTimeout : Nat)
    (pairs : List (HealthIndicator × CheckBehavior)) :
    List (HealthIndicator × CheckBehavior) :=
  List.insertionSort
    (fun p q => settleTime defaultTimeout p ≤ settleTime defaultTimeout q) pairs

/-- The `details` record built by one cycle: each settling indicator
performs `details[ind.name] = runIndicator …`, in settlement order. -/
def buildDetails (defaultTimeout : Nat)
    (pairs : List (HealthIndicator × CheckBehavior)) :
    List (String × ComponentDetail) :=
  (settlementOrder defaultTimeout pairs).foldl
    (fun d p => insertD d p.1.name (runIndicator defaultTimeout p.1 p.2)) []

/-- Whether one indicator's race ends in the `try` branch (no `catch`),
i.e. leaves the `isAllUp` flag untouched. -/
def outcomeUp (defaultTimeout : Nat) (p : HealthIndicator × CheckBehavior) : Bool :=
  (runIndicator defaultTimeout p.1 p.2).status = CompStatus.up

/-- The snapshot published by one execution of the cycle body
(`HealthMonitor.check` after the overlap guard): `status` is `ok` iff no
per-indicator `catch` branch ran (`isAllUp`), `details` is the record of
settlement-ordered assignments, `lag` was measured before the races, and
`timestamp` is the wall-clock time of publication. -/
def cycleSnapshot (defaultTimeout : Nat)
    (pairs : List (HealthIndicator × CheckBehavior)) (lag now : Nat) :
    HealthStatus :=
  { status := if pairs.all (outcomeUp defaultTimeout) then .ok else .down
    lag := lag
    details := buildDetails defaultTimeout pairs
    timestamp := now }

/-- Monitor state: the private fields of `HealthMonitor`.  `intervalId` is
the timer handle (`none` = no timer armed). -/
structure Monitor where
  indicators : List HealthIndicator
  intervalId : Option Nat
  isCheckInProgress : Bool
  config : RequiredMonitorConfig
  latestStatus : HealthStatus
deriving DecidableEq, Repr

/-- The constructor: defaults `interval ?? 3000`, `timeout ?? 1000`; the
field initializer seeds `latestStatus` with an `ok`, zero-lag, empty
snapshot stamped at construction time. -/
def mkMonitor (config : Option MonitorConfig) (now : Nat) : Monitor :=
  { indicators := []
    intervalId := none
    isCheckInProgress := false
    config :=
      { interval := (config.bind (·.interval)).getD 3000
        timeout := (config.bind (·.timeout)).getD 1000 }
    latestStatus := { status := .ok, lag := 0, details := [], timestamp := now } }

/-- `register`: append the indicator and return the monitor for chaining. -/
def register (m : Monitor) (ind : HealthIndicator) : Monitor :=
  { m with indicators := m.indicators ++ [ind] }

/-- Externally visible scheduler effects of `start` / `stop`. -/
inductive SchedulerEvent where
  | cycleTriggered
  | timerArmed (id : Nat)
  | timerCleared (id : Nat)
deriving DecidableEq, Repr

/-- `start()`: if a timer is already armed, return immediately; otherwise
trigger one immediate cycle (fire-and-forget), then arm the repeating
timer (and `unref` it).  `fresh` is the handle the runtime would allocate. -/
def start (m : Monitor) (fresh : Nat) : Monitor × List SchedulerEvent :=
  if m.intervalId.isSome then (m, [])
  else
    ({ m with intervalId := some fresh },
     [SchedulerEvent.cycleTriggered, SchedulerEvent.timerArmed fresh])

/-- `stop()`: clear the timer if one is armed, otherwise do nothing. -/
def stop (m : Monitor) : Monitor × List SchedulerEvent :=
  match m.intervalId with
  | some id => ({ m with intervalId := none }, [SchedulerEvent.timerCleared id])
  | none => (m, [])

/-- `getStatus()`: judge staleness from wall-clock age of the stored
snapshot; while stale, synthesize a fresh `down` snapshot without storing
it.  The method assigns to no field, so the post-state equals the
pre-state; it is returned alongside the result to make that explicit. -/
def getStatus (m : Monitor) (now : Nat) : HealthStatus × Monitor :=
  let isStale := (now - m.latestStatus.timestamp) > (m.config.interval * 3)
  if isStale then
    ({ status := .down
       lag := now - m.latestStatus.timestamp
       details :=
         [("system",
           { status := .down
             latency := none
             error := some "Health check loop is stalled (Event loop might be blocked)" })]
       timestamp := now }, m)
  else
    (m.latestStatus, m)

/-- One triggering of the cycle body `check()`.  If the overlap guard is
set, the call returns at once with no effect.  Otherwise the flag is set,
the registry is snapshotted, every indicator race settles (behaviour of
indicator `i` given by `env i`), the snapshot is published, and the
`finally` clause clears the flag — so the net flag change over a completed
cycle is back to `false`. -/
def checkRun (m : Monitor) (env : Nat → CheckBehavior) (lag now : Nat) : Monitor :=
  if m.isCheckInProgress then m
  else
    { m with
      isCheckInProgress := false
      latestStatus :=
        cycleSnapshot m.config.timeout
          (m.indicators.enum.map (fun p => (p.2, env p.1))) lag now }

/-! Helper lemmas about the JS-object model (`insertD` and the assignment
fold), shared by the theorems below. -/

theorem mem_insertD {d : List (String × ComponentDetail)} {k : String}
    {v : ComponentDetail} {kv : String × ComponentDetail}
    (h : kv ∈ insertD d k v) : kv ∈ d ∨ kv = (k, v) := by
  induction d with
  | nil => simpa [insertD] using h
  | cons hd tl ih =>
    obtain ⟨k₁, v₁⟩ := hd
    by_cases hk : k₁ = k
    · simp only [insertD, if_pos hk, List.mem_cons] at h
      rcases h with h | h
      · exact Or.inr h
      · exact Or.inl (List.mem_cons_of_mem _ h)
    · simp only [insertD, if_neg hk, List.mem_cons] at h
      rcases h with h | h
      · exact Or.inl (by simp [h])
      · rcases ih h with h' | h'
        · exact Or.inl (List.mem_cons_of_mem _ h')
        · exact Or.inr h'

theorem lookup_insertD_self (d : List (String × ComponentDetail)) (k : String)
    (v : ComponentDetail) : List.lookup k (insertD d k v) = some v := by
  induction d with
  | nil => simp [insertD]
  | cons hd tl ih =>
    obtain ⟨k₁, v₁⟩ := hd
    by_cases hk : k₁ = k
    · simp [insertD, if_pos hk, List.lookup_cons]
    · simp [insertD, if_neg hk, List.lookup_cons,
        beq_false_of_ne (Ne.symm hk), ih]

theorem lookup_insertD_ne (d : List (String × ComponentDetail)) {k k₁ : String}
    (v : ComponentDetail) (h : k ≠ k₁) :
    List.lookup k (insertD d k₁ v) = List.lookup k d := by
  induction d with
  | nil => simp [insertD, List.lookup_cons, beq_false_of_ne h, h]
  | cons hd tl ih =>
    obtain ⟨k₂, v₂⟩ := hd
    by_cases hk : k₂ = k₁
    · subst hk
      simp [insertD, List.lookup_cons, beq_false_of_ne h]
    · by_cases hk2 : k = k₂
      · subst hk2
        simp [insertD, if_neg hk, List.lookup_cons]
      · simp [insertD, if_neg hk, List.lookup_cons, beq_false_of_ne hk2, ih]

theorem mem_of_lookup_some {d : List (String × ComponentDetail)} {k : String}
    {v : ComponentDetail} (h : List.lookup k d = some v) : (k, v) ∈ d := by
  induction d with
  | nil => simp [List.lookup] at h
  | cons hd tl ih =>
    obtain ⟨k₁, v₁⟩ := hd
    by_cases hk : k = k₁
    · subst hk
      simp_all [List.lookup_cons]
    · rw [List.lookup_cons] at h
      simp only [beq_false_of_ne hk] at h
      exact List.mem_cons_of_mem _ (ih h)

/-- One step of the assignment fold used by `buildDetails`. -/
def detailStep (defaultTimeout : Nat) (d : List (String × ComponentDetail))
    (p : HealthIndicator × CheckBehavior) : List (String × ComponentDetail) :=
  insertD d p.1.name (runIndicator defaultTimeout p.1 p.2)

theorem buildDetails_eq_foldl (defaultTimeout : Nat)
    (pairs : List (HealthIndicator × CheckBehavior)) :
    buildDetails defaultTimeout pairs =
      (settlementOrder defaultTimeout pairs).foldl (detailStep defaultTimeout) [] := rfl

theorem lookup_foldl_not_mem (defaultTimeout : Nat) {k : String}
    (l : List (HealthIndicator × CheckBehavior))
    (init : List (String × ComponentDetail))
    (h : k ∉ l.map (fun p => p.1.name)) :
    List.lookup k (l.foldl (detailStep defaultTimeout) init) = List.lookup k init := by
  induction l generalizing init with
  | nil => rfl
  | cons hd tl ih =>
    simp only [List.map_cons, List.mem_cons, not_or] at h
    rw [List.foldl_cons, ih _ h.2, detailStep, lookup_insertD_ne _ _ h.1]

theorem lookup_foldl_of_nodup (defaultTimeout : Nat)
    {l : List (HealthIndicator × CheckBehavior)}
    {p : HealthIndicator × CheckBehavior} (hp : p ∈ l)
    (hnd : (l.map (fun q => q.1.name)).Nodup)
    (init : List (String × ComponentDetail)) :
    List.lookup p.1.name (l.foldl (detailStep defaultTimeout) init) =
      some (runIndicator defaultTimeout p.1 p.2) := by
  induction l generalizing init with
  | nil => cases hp
  | cons hd tl ih =>
    simp only [List.map_cons, List.nodup_cons] at hnd
    rcases List.mem_cons.mp hp with rfl | hmem
    · rw [List.foldl_cons,
        lookup_foldl_not_mem defaultTimeout tl _ hnd.1,
        detailStep, lookup_insertD_self]
    · rw [List.foldl_cons]
      exact ih hmem hnd.2 _

theorem mem_foldl_detailStep (defaultTimeout : Nat)
    {l : List (HealthIndicator × CheckBehavior)}
    {init : List (String × ComponentDetail)} {kv : String × ComponentDetail}
    (h : kv ∈ l.foldl (detailStep defaultTimeout) init) :
    kv ∈ init ∨
      ∃ p ∈ l, kv = (p.1.name, runIndicator defaultTimeout p.1 p.2) := by
  induction l generalizing init with
  | nil => exact Or.inl h
  | cons hd tl ih =>
    rw [List.foldl_cons] at h
    rcases ih h with h' | h'
    · rcases mem_insertD h' with h'' | h''
      · exact Or.inl h''
      · exact Or.inr ⟨hd, List.mem_cons_self _ _, h''⟩
    · obtain ⟨p, hpl, hkv⟩ := h'
      exact Or.inr ⟨p, List.mem_cons_of_mem _ hpl, hkv⟩

theorem settlementOrder_perm (defaultTimeout : Nat)
    (pairs : List (HealthIndicator × CheckBehavior)) :
    List.Perm (settlementOrder defaultTimeout pairs) pairs :=
  List.perm_insertionSort _ pairs

theorem lookup_buildDetails_of_nodup (defaultTimeout : Nat)
    {pairs : List (HealthIndicator × CheckBehavior)}
    {p : HealthIndicator × CheckBehavior} (hp : p ∈ pairs)
    (hnd : (pairs.map (fun q => q.1.name)).Nodup) :
    List.lookup p.1.name (buildDetails defaultTimeout pairs) =
      some (runIndicator defaultTimeout p.1 p.2) := by
  have hperm := settlementOrder_perm defaultTimeout pairs
  have hp' : p ∈ settlementOrder defaultTimeout pairs := hperm.mem_iff.mpr hp
  have hnd' : ((settlementOrder defaultTimeout pairs).map (fun q => q.1.name)).Nodup :=
    ((hperm.map (fun q => q.1.name)).nodup_iff).mpr hnd
  rw [buildDetails_eq_foldl]
  exact lookup_foldl_of_nodup defaultTimeout hp' hnd' []

theorem mem_buildDetails (defaultTimeout : Nat)
    {pairs : List (HealthIndicator × CheckBehavior)}
    {kv : String × ComponentDetail}
    (h : kv ∈ buildDetails defaultTimeout pairs) :
    ∃ p ∈ pairs, kv = (p.1.name, runIndicator defaultTimeout p.1 p.2) := by
  rw [buildDetails_eq_foldl] at h
  rcases mem_foldl_detailStep defaultTimeout h with h' | h'
  · cases h'
  · obtain ⟨p, hpl, hkv⟩ := h'
    exact ⟨p, (settlementOrder_perm defaultTimeout pairs).mem_iff.mp hpl, hkv⟩

theorem outcomeUp_iff (defaultTimeout : Nat) (p : HealthIndicator × CheckBehavior) :
    outcomeUp defaultTimeout p = true ↔
      (runIndicator defaultTimeout p.1 p.2).status = CompStatus.up := by
  simp [outcomeUp]

theorem cycleSnapshot_status_ok_iff (defaultTimeout : Nat)
    (pairs : List (HealthIndicator × CheckBehavior)) (lag now : Nat) :
    (cycleSnapshot defaultTimeout pairs lag now).status = OverallStatus.ok ↔
      ∀ p ∈ pairs, outcomeUp defaultTimeout p = true := by
  rw [← List.all_eq_true]
  unfold cycleSnapshot
  by_cases h : pairs.all (outcomeUp defaultTimeout) = true <;> simp [h]

theorem runIndicator_timeout (defaultTimeout : Nat) (ind : HealthIndicator)
    (b : CheckBehavior) (hslow : b.time > effTimeout defaultTimeout ind) :
    runIndicator defaultTimeout ind b =
      { status := .down, latency := none
        error := some (timeoutMessage (effTimeout defaultTimeout ind)) } := by
  cases b with
  | resolve t =>
    have hnot : ¬ t < effTimeout defaultTimeout ind := Nat.lt_asymm hslow
    simp [runIndicator, if_neg hnot]
  | reject t msg =>
    have hnot : ¬ t < effTimeout defaultTimeout ind := Nat.lt_asymm hslow
    simp [runIndicator, if_neg hnot]

theorem cycleSnapshot_status_down_of_mem_down (defaultTimeout : Nat)
    {pairs : List (HealthIndicator × CheckBehavior)}
    {p : HealthIndicator × CheckBehavior} (hmem : p ∈ pairs) (lag now : Nat)
    (hdown : (runIndicator defaultTimeout p.1 p.2).status = CompStatus.down) :
    (cycleSnapshot defaultTimeout pairs lag now).status = OverallStatus.down := by
  have hnotok : ¬ (cycleSnapshot defaultTimeout pairs lag now).status = OverallStatus.ok := by
    intro hok
    have := (outcomeUp_iff defaultTimeout p).mp
      ((cycleSnapshot_status_ok_iff defaultTimeout pairs lag now).mp hok p hmem)
    rw [this] at hdown
    cases hdown
  unfold cycleSnapshot at hnotok ⊢
  by_cases h : pairs.all (outcomeUp defaultTimeout) = true <;> simp [h] at hnotok ⊢

/-- C1 counterexample: with two indicators sharing the name `"x"` — the
first rejecting immediately, the second resolving after 5 ms — the
published snapshot has every recorded detail `up` (the failed slot is
overwritten) yet its aggregate status is `down`, so "status is ok iff
every recorded detail is up" is false as stated. -/
theorem C1_aggregate_iff_counterexample :
    ¬ ((cycleSnapshot 1000
          [(⟨"x", none⟩, CheckBehavior.reject 0 (some "boom")),
           (⟨"x", none⟩, CheckBehavior.resolve 5)] 0 100).status = OverallStatus.ok ↔
        ∀ kv ∈ (cycleSnapshot 1000
          [(⟨"x", none⟩, CheckBehavior.reject 0 (some "boom")),
           (⟨"x", none⟩, CheckBehavior.resolve 5)] 0 100).details,
          kv.2.status = CompStatus.up) := by decide

/-- C1 (amended): the aggregate status is `ok` iff every indicator
outcome of the cycle is `up` (zero indicators ⇒ `ok` vacuously); `ok`
always implies every recorded detail is `up`, and when the registered
names are distinct the aggregate status is `ok` iff every recorded detail
is `up`.  With duplicate names a failed outcome's detail slot can be
overwritten by a later-settling duplicate, so the right-to-left direction
can fail. -/
theorem C1_aggregate_status (defaultTimeout : Nat)
    (pairs : List (HealthIndicator × CheckBehavior)) (lag now : Nat) :
    ((cycleSnapshot defaultTimeout pairs lag now).status = OverallStatus.ok ↔
        ∀ p ∈ pairs, outcomeUp defaultTimeout p = true)
    ∧ ((cycleSnapshot defaultTimeout pairs lag now).status = OverallStatus.ok →
        ∀ kv ∈ (cycleSnapshot defaultTimeout pairs lag now).details,
          kv.2.status = CompStatus.up)
    ∧ ((pairs.map (fun q => q.1.name)).Nodup →
        ((cycleSnapshot defaultTimeout pairs lag now).status = OverallStatus.ok ↔
          ∀ kv ∈ (cycleSnapshot defaultTimeout pairs lag now).details,
            kv.2.status = CompStatus.up))
    ∧ (pairs = [] →
        (cycleSnapshot defaultTimeout pairs lag now).status = OverallStatus.ok) := by
  have hfwd : (cycleSnapshot defaultTimeout pairs lag now).status = OverallStatus.ok →
      ∀ kv ∈ (cycleSnapshot defaultTimeout pairs lag now).details,
        kv.2.status = CompStatus.up := by
    intro hok kv hkv
    obtain ⟨p, hpmem, hkveq⟩ := mem_buildDetails defaultTimeout hkv
    have hup := (outcomeUp_iff defaultTimeout p).mp
      ((cycleSnapshot_status_ok_iff defaultTimeout pairs lag now).mp hok p hpmem)
    rw [hkveq]
    exact hup
  refine ⟨cycleSnapshot_status_ok_iff defaultTimeout pairs lag now, hfwd, ?_, ?_⟩
  · intro hnd
    refine ⟨hfwd, ?_⟩
    intro hdet
    rw [cycleSnapshot_status_ok_iff]
    intro p hpmem
    have hlook := lookup_buildDetails_of_nodup defaultTimeout hpmem hnd
    have hmem := mem_of_lookup_some hlook
    rw [outcomeUp_iff]
    exact hdet _ hmem
  · intro h
    subst h
    rfl

theorem C1_aggregate_status_witness :
    (cycleSnapshot 1000 [(⟨"a", none⟩, CheckBehavior.resolve 1)] 0 5).status =
      OverallStatus.ok :=
  ((C1_aggregate_status 1000 [(⟨"a", none⟩, CheckBehavior.resolve 1)] 0 5).1).mpr
    (by decide)

/-- C2: while the stored snapshot is older than three intervals,
`getStatus` returns the synthetic stalled snapshot (status `down`, lag
equal to the age, a single `"system"` detail, timestamp `now`) and leaves
the stored state untouched; otherwise it returns the stored snapshot
verbatim. -/
theorem C2_getStatus_stale (m : Monitor) (now : Nat) :
    ((now - m.latestStatus.timestamp > m.config.interval * 3) →
      getStatus m now =
        ({ status := .down
           lag := now - m.latestStatus.timestamp
           details :=
             [("system",
               { status := .down, latency := none
                 error := some "Health check loop is stalled (Event loop might be blocked)" })]
           timestamp := now }, m))
    ∧ (¬ (now - m.latestStatus.timestamp > m.config.interval * 3) →
      getStatus m now = (m.latestStatus, m)) := by
  constructor <;> intro h <;> simp [getStatus, h]

theorem C2_getStatus_stale_witness :
    getStatus (mkMonitor none 0) 10000 =
      ({ status := .down
         lag := 10000
         details :=
           [("system",
             { status := .down, latency := none
               error := some "Health check loop is stalled (Event loop might be blocked)" })]
         timestamp := 10000 }, mkMonitor none 0) :=
  (C2_getStatus_stale (mkMonitor none 0) 10000).1 (by decide)

/-- C3: an indicator whose check takes longer than its effective timeout
`T` is recorded as `down` with error `Timeout of {T}ms exceeded` and no
latency field, and the cycle's aggregate status is `down` regardless of
the other indicators; with distinct registered names the published details
map holds exactly that entry under the indicator's name. -/
theorem C3_timeout_detail (defaultTimeout : Nat)
    (pairs : List (HealthIndicator × CheckBehavior))
    (ind : HealthIndicator) (b : CheckBehavior) (lag now : Nat)
    (hmem : (ind, b) ∈ pairs) (hslow : b.time > effTimeout defaultTimeout ind) :
    runIndicator defaultTimeout ind b =
      { status := .down, latency := none
        error := some (timeoutMessage (effTimeout defaultTimeout ind)) }
    ∧ (cycleSnapshot defaultTimeout pairs lag now).status = OverallStatus.down
    ∧ ((pairs.map (fun q => q.1.name)).Nodup →
        List.lookup ind.name (cycleSnapshot defaultTimeout pairs lag now).details =
          some { status := .down, latency := none
                 error := some (timeoutMessage (effTimeout defaultTimeout ind)) }) := by
  have hrun := runIndicator_timeout defaultTimeout ind b hslow
  refine ⟨hrun, ?_, ?_⟩
  · exact cycleSnapshot_status_down_of_mem_down defaultTimeout hmem lag now (by rw [hrun])
  · intro hnd
    have := lookup_buildDetails_of_nodup defaultTimeout hmem hnd
    rw [show ((ind, b).1 : HealthIndicator) = ind from rfl] at this
    rw [show (cycleSnapshot defaultTimeout pairs lag now).details =
        buildDetails defaultTimeout pairs from rfl]
    rw [this, hrun]

theorem C3_timeout_detail_witness :
    (cycleSnapshot 1000 [(⟨"db", some 10⟩, CheckBehavior.resolve 20)] 0 5).status =
      OverallStatus.down :=
  (C3_timeout_detail 1000 [(⟨"db", some 10⟩, CheckBehavior.resolve 20)]
    ⟨"db", some 10⟩ (CheckBehavior.resolve 20) 0 5 (by decide) (by decide)).2.1

/-- C4 counterexample: a check failing before timeout with the
empty-string message carries message `""`, but the recorded error is the
fallback `"Unknown Error"`, not `""` verbatim (JS `error.message ||`
treats the empty string as falsy). -/
theorem C4_verbatim_counterexample :
    runIndicator 1000 ⟨"db", none⟩ (CheckBehavior.reject 5 (some "")) ≠
      { status := .down, latency := none, error := some "" }
    ∧ runIndicator 1000 ⟨"db", none⟩ (CheckBehavior.reject 5 (some "")) =
      { status := .down, latency := none, error := some "Unknown Error" } := by
  decide

/-- C4 (amended): an indicator failing before its effective timeout is
recorded as `down` with error `errorMessage msg`; a non-empty message is
passed through verbatim, while a missing or empty-string message yields
the literal `"Unknown Error"`.  With distinct registered names the
published details map holds exactly that entry under the indicator's
name, and the aggregate status is `down`. -/
theorem C4_failure_message (defaultTimeout : Nat)
    (pairs : List (HealthIndicator × CheckBehavior))
    (ind : HealthIndicator) (t : Nat) (msg : Option String) (lag now : Nat)
    (hmem : (ind, CheckBehavior.reject t msg) ∈ pairs)
    (hfast : t < effTimeout defaultTimeout ind) :
    runIndicator defaultTimeout ind (CheckBehavior.reject t msg) =
      { status := .down, latency := none, error := some (errorMessage msg) }
    ∧ (∀ M, msg = some M → M ≠ "" → errorMessage msg = M)
    ∧ ((msg = none ∨ msg = some "") → errorMessage msg = "Unknown Error")
    ∧ (cycleSnapshot defaultTimeout pairs lag now).status = OverallStatus.down
    ∧ ((pairs.map (fun q => q.1.name)).Nodup →
        List.lookup ind.name (cycleSnapshot defaultTimeout pairs lag now).details =
          some { status := .down, latency := none
                 error := some (errorMessage msg) }) := by
  have hrun : runIndicator defaultTimeout ind (CheckBehavior.reject t msg) =
      { status := .down, latency := none, error := some (errorMessage msg) } := by
    simp [runIndicator, if_pos hfast]
  refine ⟨hrun, ?_, ?_, ?_, ?_⟩
  · intro M hM hne
    subst hM
    simp [errorMessage, hne]
  · rintro (h | h) <;> subst h <;> simp [errorMessage]
  · exact cycleSnapshot_status_down_of_mem_down defaultTimeout hmem lag now (by rw [hrun])
  · intro hnd
    have := lookup_buildDetails_of_nodup defaultTimeout hmem hnd
    rw [show (cycleSnapshot defaultTimeout pairs lag now).details =
        buildDetails defaultTimeout pairs from rfl]
    rw [this, hrun]

theorem C4_failure_message_witness :
    runIndicator 1000 ⟨"db", none⟩ (CheckBehavior.reject 5 (some "boom")) =
      { status := .down, latency := none, error := some (errorMessage (some "boom")) } :=
  (C4_failure_message 1000 [(⟨"db", none⟩, CheckBehavior.reject 5 (some "boom"))]
    ⟨"db", none⟩ 5 (some "boom") 0 9 (by decide) (by decide)).1

/-- C5: a triggering of the cycle body while the in-progress flag is set
is dropped with no state change at all, and a triggering admitted while
the flag is clear leaves the flag clear again once the cycle completes,
so the next trigger is admitted. -/
theorem C5_overlap_guard (m : Monitor) (env : Nat → CheckBehavior) (lag now : Nat) :
    (m.isCheckInProgress = true → checkRun m env lag now = m)
    ∧ (m.isCheckInProgress = false →
        (checkRun m env lag now).isCheckInProgress = false) := by
  constructor <;> intro h <;> simp [checkRun, h]

theorem C5_overlap_guard_witness :
    checkRun { mkMonitor none 0 with isCheckInProgress := true }
        (fun _ => CheckBehavior.resolve 0) 0 0 =
      { mkMonitor none 0 with isCheckInProgress := true } :=
  (C5_overlap_guard { mkMonitor none 0 with isCheckInProgress := true }
    (fun _ => CheckBehavior.resolve 0) 0 0).1 rfl

/-- C6: `start` twice in a row equals `start` once — the second call
changes no state, arms no timer and triggers no cycle; `stop` on a
stopped monitor is a no-op, and a second `stop` is always a no-op.
Neither returns a value (beyond the state/event model) nor fails. -/
theorem C6_start_stop_idempotent (m : Monitor) (f₁ f₂ : Nat) :
    start (start m f₁).1 f₂ = ((start m f₁).1, [])
    ∧ (m.intervalId = none → stop m = (m, []))
    ∧ stop (stop m).1 = ((stop m).1, []) := by
  refine ⟨?_, ?_, ?_⟩
  · cases h : m.intervalId <;> simp [start, h]
  · intro h
    simp [stop, h]
  · cases h : m.intervalId <;> simp [stop, h]

theorem C6_start_stop_idempotent_witness :
    stop (mkMonitor none 0) = (mkMonitor none 0, []) :=
  (C6_start_stop_idempotent (mkMonitor none 0) 0 1).2.1 rfl

theorem runIndicator_field_invariant (defaultTimeout : Nat)
    (ind : HealthIndicator) (b : CheckBehavior) :
    ((runIndicator defaultTimeout ind b).status = CompStatus.up →
      (∃ l, (runIndicator defaultTimeout ind b).latency = some l)
        ∧ (runIndicator defaultTimeout ind b).error = none)
    ∧ ((runIndicator defaultTimeout ind b).status = CompStatus.down →
      (∃ e, (runIndicator defaultTimeout ind b).error = some e)
        ∧ (runIndicator defaultTimeout ind b).latency = none) := by
  cases b with
  | resolve t =>
    by_cases h : t < effTimeout defaultTimeout ind <;>
      simp [runIndicator, h]
  | reject t msg =>
    by_cases h : t < effTimeout defaultTimeout ind <;>
      simp [runIndicator, h]

/-- C7: every detail recorded by a cycle has, when `up`, a latency and no
error, and, when `down`, an error and no latency — exactly one of the two
fields is populated in every entry of the published details map. -/
theorem C7_detail_exclusivity (defaultTimeout : Nat)
    (pairs : List (HealthIndicator × CheckBehavior)) (lag now : Nat) :
    ∀ kv ∈ (cycleSnapshot defaultTimeout pairs lag now).details,
      ((kv.2.status = CompStatus.up →
          (∃ l, kv.2.latency = some l) ∧ kv.2.error = none)
        ∧ (kv.2.status = CompStatus.down →
          (∃ e, kv.2.error = some e) ∧ kv.2.latency = none)) := by
  intro kv hkv
  obtain ⟨p, hpmem, hkveq⟩ := mem_buildDetails defaultTimeout hkv
  rw [hkveq]
  exact runIndicator_field_invariant defaultTimeout p.1 p.2

theorem C7_detail_exclusivity_witness :
    (∃ l, (({ status := CompStatus.up, latency := some 1, error := none } :
        ComponentDetail)).latency = some l)
      ∧ (({ status := CompStatus.up, latency := some 1, error := none } :
        ComponentDetail)).error = none :=
  ((C7_detail_exclusivity 1000 [(⟨"a", none⟩, CheckBehavior.resolve 1)] 0 5)
    ("a", { status := CompStatus.up, latency := some 1, error := none })
    (by decide)).1 rfl
/-- C8: construction resolves each omitted configuration field to its
default (`interval` 3000 ms, `timeout` 1000 ms) and keeps supplied fields
as given; no subsequent operation (`register`, `start`, `stop`, a cycle,
`getStatus`) ever changes the resolved configuration. -/
theorem C8_config_defaults (i t now : Nat) (m : Monitor) (ind : HealthIndicator)
    (f : Nat) (env : Nat → CheckBehavior) (lag n₂ : Nat) :
    (mkMonitor none now).config = { interval := 3000, timeout := 1000 }
    ∧ (mkMonitor (some { interval := none, timeout := none }) now).config =
        { interval := 3000, timeout := 1000 }
    ∧ (mkMonitor (some { interval := some i, timeout := some t }) now).config =
        { interval := i, timeout := t }
    ∧ (mkMonitor (some { interval := some i, timeout := none }) now).config =
        { interval := i, timeout := 1000 }
    ∧ (mkMonitor (some { interval := none, timeout := some t }) now).config =
        { interval := 3000, timeout := t }
    ∧ (register m ind).config = m.config
    ∧ ((start m f).1).config = m.config
    ∧ ((stop m).1).config = m.config
    ∧ (checkRun m env lag n₂).config = m.config
    ∧ ((getStatus m n₂).2).config = m.config := by
  refine ⟨rfl, rfl, rfl, rfl, rfl, rfl, ?_, ?_, ?_, ?_⟩
  · by_cases h : m.intervalId.isSome <;> simp [start, h]
  · cases h : m.intervalId <;> simp [stop, h]
  · by_cases h : m.isCheckInProgress <;> simp [checkRun, h]
  · by_cases h : (n₂ - m.latestStatus.timestamp) > (m.config.interval * 3) <;>
      simp [getStatus, h]

/-- C9 (implicit): a freshly constructed monitor already stores the
snapshot `{status: ok, lag: 0, details: {}}` stamped at construction
time; `getStatus` on the never-started monitor returns it verbatim until
more than three intervals have elapsed since construction, after which
it returns the synthetic stalled `down` snapshot. -/
theorem C9_initial_snapshot (cfg : Option MonitorConfig) (t₀ now : Nat) :
    (mkMonitor cfg t₀).latestStatus =
      { status := .ok, lag := 0, details := [], timestamp := t₀ }
    ∧ (¬ (now - t₀ > (mkMonitor cfg t₀).config.interval * 3) →
        (getStatus (mkMonitor cfg t₀) now).1 =
          { status := .ok, lag := 0, details := [], timestamp := t₀ })
    ∧ ((now - t₀ > (mkMonitor cfg t₀).config.interval * 3) →
        (getStatus (mkMonitor cfg t₀) now).1 =
          { status := .down
            lag := now - t₀
            details :=
              [("system",
                { status := .down, latency := none
                  error := some "Health check loop is stalled (Event loop might be blocked)" })]
            timestamp := now }) := by
  refine ⟨rfl, ?_, ?_⟩ <;> intro h <;>
    simp only [getStatus, mkMonitor] at h ⊢ <;> simp [h]

theorem C9_initial_snapshot_witness :
    (getStatus (mkMonitor none 0) 10).1 =
      { status := OverallStatus.ok, lag := 0, details := [], timestamp := 0 } :=
  (C9_initial_snapshot none 0 10).2.1 (by decide)

/-- C10 (implicit): the `"Unknown Error"` fallback also covers a failure
carrying the empty-string message — a check rejecting before its
effective timeout with message `""` is recorded as `down` with error
`"Unknown Error"`, not `""`. -/
theorem C10_empty_message_fallback (defaultTimeout : Nat)
    (ind : HealthIndicator) (t : Nat)
    (hfast : t < effTimeout defaultTimeout ind) :
    runIndicator defaultTimeout ind (CheckBehavior.reject t (some "")) =
      { status := .down, latency := none, error := some "Unknown Error" }
    ∧ runIndicator defaultTimeout ind (CheckBehavior.reject t (some "")) ≠
      { status := .down, latency := none, error := some "" } := by
  constructor
  · simp [runIndicator, if_pos hfast, errorMessage]
  · simp [runIndicator, if_pos hfast, errorMessage]

theorem C10_empty_message_fallback_witness :
    runIndicator 1000 ⟨"db", none⟩ (CheckBehavior.reject 5 (some "")) =
      { status := CompStatus.down, latency := none, error := some "Unknown Error" } :=
  (C10_empty_message_fallback 1000 ⟨"db", none⟩ 5 (by decide)).1

